import Mathlib

/-!
Verification of the HelpSpot web-service client (`helpspot/api.py`).

The development shallowly embeds the request-construction, authorization,
and error-decoding pipeline of the client.  Python strings are Lean
`String`s, decoded JSON values are the inductive `JVal`, Python's
subscript exceptions are the inductive `PyExc`, and functions that may
raise a non-`HelpSpotError` exception return `Except PyExc _`.
-/

/-- A decoded JSON value, as produced by `json.loads`. -/
inductive JVal where
  | jnull
  | jbool (b : Bool)
  | jnum (n : Int)
  | jstr (s : String)
  | jarr (xs : List JVal)
  | jobj (kvs : List (String × JVal))

/-- Python exceptions that subscripting a decoded JSON value can raise. -/
inductive PyExc where
  | keyError
  | indexError
  | typeError
deriving DecidableEq

/-- Python subscript `v[k]` with a string key `k`: succeeds only on a
dict containing the key; raises `KeyError` on a dict lacking it and
`TypeError` on lists, strings, numbers, booleans and `null`. -/
def pyGetKey (v : JVal) (k : String) : Except PyExc JVal :=
  match v with
  | .jobj kvs =>
    match kvs.lookup k with
    | some x => .ok x
    | none => .error .keyError
  | _ => .error .typeError

/-- Python subscript `v[0]`: first element of a list (raising
`IndexError` when empty), first character of a string (raising
`IndexError` when empty), `KeyError` on a string-keyed dict, and
`TypeError` otherwise. -/
def pyGetIdx0 (v : JVal) : Except PyExc JVal :=
  match v with
  | .jarr [] => .error .indexError
  | .jarr (x :: _) => .ok x
  | .jobj _ => .error .keyError
  | .jstr s =>
    match s.data with
    | [] => .error .indexError
    | c :: _ => .ok (.jstr ⟨[c]⟩)
  | _ => .error .typeError

/-- The exception type raised when HelpSpot returns HTTP status 400
(`HelpSpotError` in the source): a description `err_mesg` and an error
id `err_id`.  Both are carried as the raw JSON values extracted from the
error payload, since Python stores them untyped. -/
structure HelpSpotError where
  err_mesg : JVal
  err_id : JVal

/-- `HelpSpotHandler.http_error_400`, applied to the decoded JSON body
`errs` of a 400 response.  The source runs
`details = errs['error'][0]; err_mesg = details['description'];
err_id = details['id']` inside a `try` whose only handler catches
`IndexError`, substituting `'Unknown HelpSpot API error'` and `0`;
it then raises `HelpSpotError(err_mesg, err_id)`.
A result `.ok e` means the handler raised `HelpSpotError e`; a result
`.error exc` means a different exception `exc` escaped the handler. -/
def http_error_400 (errs : JVal) : Except PyExc HelpSpotError :=
  match (do
      let details ← pyGetKey errs "error" >>= pyGetIdx0
      let m ← pyGetKey details "description"
      let i ← pyGetKey details "id"
      pure (m, i) : Except PyExc (JVal × JVal)) with
  | .ok (m, i) => .ok ⟨m, i⟩
  | .error .indexError => .ok ⟨.jstr "Unknown HelpSpot API error", .jnum 0⟩
  | .error e => .error e

example : http_error_400 (.jobj [("error", .jarr [])]) =
    .ok ⟨.jstr "Unknown HelpSpot API error", .jnum 0⟩ := rfl

example : http_error_400 (.jobj []) = .error .keyError := rfl

example : http_error_400
    (.jobj [("error", .jarr [.jobj [("description", .jstr "Bad token"), ("id", .jnum 42)]])]) =
    .ok ⟨.jstr "Bad token", .jnum 42⟩ := rfl

example : http_error_400 (.jobj [("error", .jarr [.jobj [("id", .jnum 7)]])]) =
    .error .keyError := rfl

/-! ### String helpers modelling Python's `str` methods -/

/-- Python `s.replace(a, b)` for one-character `a` and `b`: with a
single-character pattern, substring replacement is exactly a character
map. -/
def pyReplace1 (s : String) (a b : Char) : String :=
  ⟨s.data.map (fun c => if c = a then b else c)⟩

/-- Python `s.rstrip(c)` for a one-character argument: remove every
trailing occurrence of `c`. -/
def pyRstripChar (s : String) (c : Char) : String :=
  ⟨(s.data.reverse.dropWhile (· == c)).reverse⟩

/-- Python's whitespace characters, the set stripped by a bare
`rstrip()`: space, tab, newline, carriage return, vertical tab, form
feed. -/
def isPyWS (c : Char) : Bool :=
  [' ', '\t', '\n', '\r', Char.ofNat 11, Char.ofNat 12].contains c

/-- Python `s.rstrip()` with no argument: remove all trailing
whitespace. -/
def pyRstripWS (s : String) : String :=
  ⟨(s.data.reverse.dropWhile isPyWS).reverse⟩

/-- Python `s.startswith(p)`. -/
def pyStartswith (s p : String) : Bool :=
  p.data.isPrefixOf s.data

/-! ### base64 (the `base64.b64encode` library call) -/

/-- The standard base64 alphabet. -/
def b64Alphabet : List Char :=
  "ABCDEFGHIJKLMNOPQRSTUVWXYZabcdefghijklmnopqrstuvwxyz0123456789+/".data

/-- The base64 digit for a 6-bit group. -/
def b64Char (n : Nat) : Char :=
  b64Alphabet.getD n 'A'

/-- UTF-8 encoding of one character, as its list of byte values. -/
def utf8Bytes (c : Char) : List Nat :=
  let n := c.toNat
  if n < 128 then [n]
  else if n < 2048 then [192 + n / 64, 128 + n % 64]
  else if n < 65536 then [224 + n / 4096, 128 + n / 64 % 64, 128 + n % 64]
  else [240 + n / 262144, 128 + n / 4096 % 64, 128 + n / 64 % 64, 128 + n % 64]

/-- UTF-8 encoding of a character list (Python `s.encode('utf-8')`). -/
def utf8Encode : List Char → List Nat
  | [] => []
  | c :: rest => utf8Bytes c ++ utf8Encode rest

/-- Standard base64 encoding of a byte list, with `=` padding
(`base64.b64encode`). -/
def b64EncodeBytes : List Nat → List Char
  | [] => []
  | [a] => [b64Char (a / 4), b64Char (a % 4 * 16), '=', '=']
  | [a, b] => [b64Char (a / 4), b64Char (a % 4 * 16 + b / 16), b64Char (b % 16 * 4), '=']
  | a :: b :: c :: rest =>
    [b64Char (a / 4), b64Char (a % 4 * 16 + b / 16), b64Char (b % 16 * 4 + c / 64),
      b64Char (c % 64)] ++ b64EncodeBytes rest

/-- `base64.b64encode(s.encode('utf-8'))` as a string. -/
def b64of (s : String) : String :=
  ⟨b64EncodeBytes (utf8Encode s.data)⟩

/-! ### URL encoding (the `urlencode` library call, Python 3 semantics) -/

/-- The characters `urllib.parse.quote` never encodes: ASCII letters,
digits, and `_.-~`. -/
def pyAlwaysSafe (c : Char) : Bool :=
  c.isAlphanum || c == '_' || c == '.' || c == '-' || c == '~'

/-- `%XX` with uppercase hex digits for one byte value. -/
def pctEncodeByte (b : Nat) : List Char :=
  let hexDigit := fun n => if n < 10 then Char.ofNat (48 + n) else Char.ofNat (55 + n)
  ['%', hexDigit (b / 16 % 16), hexDigit (b % 16)]

/-- `urllib.parse.quote` over a character list: keep always-safe and
`safe` characters, percent-encode the UTF-8 bytes of the rest. -/
def quoteChars (safe : List Char) : List Char → List Char
  | [] => []
  | c :: rest =>
    (if pyAlwaysSafe c || safe.contains c then [c]
     else (utf8Bytes c).foldr (fun b acc => pctEncodeByte b ++ acc) []) ++ quoteChars safe rest

/-- `urllib.parse.quote_plus`: like `quote` but spaces become `+`. -/
def quote_plus (s : String) : String :=
  if s.data.contains ' ' then
    ⟨(quoteChars [' '] s.data).map (fun c => if c = ' ' then '+' else c)⟩
  else ⟨quoteChars [] s.data⟩

/-- One `key=value` pair of `urlencode` output. -/
def encPair (kv : String × String) : String :=
  quote_plus kv.1 ++ "=" ++ quote_plus kv.2

/-- Python `'&'.join`. -/
def joinAmp : List String → String
  | [] => ""
  | [x] => x
  | x :: y :: rest => x ++ "&" ++ joinAmp (y :: rest)

/-- `urllib.parse.urlencode(kwargs)`: the keyword arguments of a call,
in order, each as `quote_plus(key)=quote_plus(value)`, joined by `&`. -/
def urlencode (kwargs : List (String × String)) : String :=
  joinAmp (kwargs.map encPair)

example : urlencode [("a b", "c&d"), ("x", "1")] = "a+b=c%26d&x=1" := rfl
example : b64of "user:password" = "dXNlcjpwYXNzd29yZA==" := rfl
example : pyReplace1 "private_request_update" '_' '.' = "private.request.update" := rfl
example : pyRstripChar "http://h.example.com/help///" '/' = "http://h.example.com/help" := rfl

/-! ### The HelpSpot client -/

/-- The fixed list of wire-form method names that use POST
(`_POST_METHODS` in the source). -/
def _POST_METHODS : List String :=
  [ "request.create",
    "request.update",
    "forums.createTopic",
    "forums.createPost",
    "private.request.create",
    "private.request.update",
    "private.request.addTimeEvent",
    "private.request.deleteTimeEvent",
    "private.request.merge",
    "private.request.unsubscribe" ]

/-- One method invoker (`HelpSpotAPI`), with the fields its `__init__`
binds. -/
structure HelpSpotAPI where
  method : String
  user : String
  password : String
  authz : String
  uri : String
  action : String

/-- `HelpSpotAPI.__init__(method, user, password, uri)`: translate the
method name to wire form (underscore to dot), precompute the base64
authorization token of `'user:password'` (Python's `b64encode(...)
.rstrip()`), normalize the endpoint by stripping trailing slashes and
appending the fixed entry path, and pick the HTTP verb from
`_POST_METHODS`. -/
def HelpSpotAPI.init (method user password uri : String) : HelpSpotAPI :=
  let m := pyReplace1 method '_' '.'
  ⟨m, user, password,
    pyRstripWS (b64of (user ++ ":" ++ password)),
    pyRstripChar uri '/' ++ "/api/index.php?method=",
    if m ∈ _POST_METHODS then "POST" else "GET"⟩

/-- The HTTP request built by one invocation: the full URL, the
message body passed to `urlopen` (absent for GET), and the value of
the `Authorization` header when one was added. -/
structure Request where
  url : String
  body : Option String
  authHeader : Option String

/-- `HelpSpotAPI.__call__(**kwargs)` up to the point the request is
handed to `urlopen`: returns the request built from the invoker's
fields together with the invoker's state after the call (the source
assigns no attribute in `__call__`).  `kwargs` is the ordered list of
keyword arguments, values already converted to strings. -/
def HelpSpotAPI.call (self : HelpSpotAPI) (kwargs : List (String × String)) :
    Request × HelpSpotAPI :=
  let uri0 := self.uri ++ self.method
  let params := urlencode kwargs
  let withVerb : String × Option String :=
    if self.action = "GET" then
      (if params ≠ "" then uri0 ++ "&" ++ params else uri0, none)
    else (uri0, some params)
  let url := withVerb.1 ++ "&output=json"
  let auth :=
    if pyStartswith self.method "private." then some ("Basic " ++ self.authz) else none
  (⟨url, withVerb.2, auth⟩, self)

/-- The query-string portion of a URL: everything after the first `?`
(empty when there is none). -/
def queryOf (url : String) : String :=
  ⟨(url.data.dropWhile (fun c => !(c == '?'))).drop 1⟩

/-- The caller-facing client (`HelpSpot`), with the attributes its
`__init__` stores.  The transport-opener installation it also performs
is process-global I/O configuration, outside this model. -/
structure HelpSpot where
  uri : String
  user : String
  password : String

/-- `HelpSpot.__init__(uri, user, password)`. -/
def HelpSpot.init (uri user password : String) : HelpSpot :=
  ⟨uri, user, password⟩

/-- The result of an attribute access on a `HelpSpot` object: either a
value stored in the instance dictionary, or a fresh invoker. -/
inductive AttrResult where
  | stored (s : String)
  | invoker (a : HelpSpotAPI)

/-- Python attribute access `hs.key` on a `HelpSpot` instance.  Normal
lookup finds the instance attributes `uri`, `user` and `password` set
by `__init__`; only when it fails does Python invoke `__getattr__`,
whose `object.__getattr__` probe itself raises `AttributeError`, so it
returns `HelpSpotAPI(key, self.user, self.password, self.uri)`. -/
def HelpSpot.getattr (hs : HelpSpot) (key : String) : AttrResult :=
  if key = "uri" then .stored hs.uri
  else if key = "user" then .stored hs.user
  else if key = "password" then .stored hs.password
  else .invoker (HelpSpotAPI.init key hs.user hs.password hs.uri)

example : (HelpSpotAPI.init "version" "u" "p" "http://h").action = "GET" := rfl
example : (HelpSpotAPI.init "request_create" "u" "p" "http://h").action = "POST" := rfl
example :
    ((HelpSpotAPI.init "private_version" "u" "p" "http://h/").call [("a b", "c")]).1.url =
    "http://h/api/index.php?method=private.version&a+b=c&output=json" := rfl
example :
    ((HelpSpotAPI.init "private_version" "u" "p" "http://h/").call []).1.authHeader =
    some "Basic dTpw" := rfl
example :
    ((HelpSpotAPI.init "request_create" "u" "p" "http://h").call [("x", "1")]).1 =
    ⟨"http://h/api/index.php?method=request.create&output=json", some "x=1", none⟩ := rfl
example : queryOf "http://h/api/index.php?method=version&output=json" =
    "method=version&output=json" := rfl

/-! ### Helper lemmas -/

/-- `getD` with default `.` commutes with the underscore-to-dot map,
because the map fixes `.`. -/
theorem getD_map_underscore_dot (l : List Char) (i : Nat) :
    (l.map (fun c => if c = '_' then '.' else c)).getD i '.' =
    (if l.getD i '.' = '_' then '.' else l.getD i '.') := by
  induction l generalizing i with
  | nil => simp
  | cons a t ih =>
    cases i with
    | zero => simp
    | succ n => simpa using ih n

/-- A call never modifies the invoker. -/
theorem call_snd (a : HelpSpotAPI) (kw : List (String × String)) :
    (a.call kw).2 = a := rfl

/-! ### Claims about the error decoder (C3, C4, C5) -/

/-- C3 counterexample: a 400 body whose `error` array is missing — the
JSON object `{}` — makes the decoder raise a `KeyError`, a secondary
error, and no `HelpSpotError` at all (`toOption` is `none` exactly when
no `HelpSpotError` was raised), contrary to the claim that the decoder
always falls back and always raises a ServiceError. -/
theorem c3_decoder_total_cex :
    http_error_400 (.jobj []) = .error .keyError ∧
    (http_error_400 (.jobj [])).toOption = none :=
  ⟨rfl, rfl⟩

/-- C3 amended: the decoder's fallback covers only the `IndexError`
case.  For a body whose `error` key maps to an empty array it raises
the generic `HelpSpotError` (description `'Unknown HelpSpot API
error'`, id 0); when the first element is an object with both
`description` and `id` it raises a `HelpSpotError` with those values;
but when the `error` key is missing, or the first element lacks the
`description` or the `id` key, it raises an uncaught `KeyError`
instead of a `HelpSpotError`. -/
theorem c3_decoder_amended :
    (∀ kvs, kvs.lookup "error" = some (.jarr []) →
      http_error_400 (.jobj kvs) = .ok ⟨.jstr "Unknown HelpSpot API error", .jnum 0⟩) ∧
    (∀ kvs d rest m i, kvs.lookup "error" = some (.jarr (.jobj d :: rest)) →
      d.lookup "description" = some m → d.lookup "id" = some i →
      http_error_400 (.jobj kvs) = .ok ⟨m, i⟩) ∧
    (∀ kvs, kvs.lookup "error" = none →
      http_error_400 (.jobj kvs) = .error .keyError) ∧
    (∀ kvs d rest, kvs.lookup "error" = some (.jarr (.jobj d :: rest)) →
      d.lookup "description" = none →
      http_error_400 (.jobj kvs) = .error .keyError) ∧
    (∀ kvs d rest m, kvs.lookup "error" = some (.jarr (.jobj d :: rest)) →
      d.lookup "description" = some m → d.lookup "id" = none →
      http_error_400 (.jobj kvs) = .error .keyError) := by
  refine ⟨fun kvs h => ?_, fun kvs d rest m i h hm hi => ?_, fun kvs h => ?_,
    fun kvs d rest h hm => ?_, fun kvs d rest m h hm hi => ?_⟩ <;>
    simp [http_error_400, pyGetKey, pyGetIdx0, h, Bind.bind, Except.bind,
      Functor.map, Except.map, Pure.pure, Except.pure, *]

/-- C3 witness: the five cases of the amended statement at concrete
bodies. -/
theorem c3_decoder_amended_witness :
    http_error_400 (.jobj [("error", .jarr [])]) =
      .ok ⟨.jstr "Unknown HelpSpot API error", .jnum 0⟩ ∧
    http_error_400
        (.jobj [("error", .jarr [.jobj [("description", .jstr "Bad"), ("id", .jnum 1)]])]) =
      .ok ⟨.jstr "Bad", .jnum 1⟩ ∧
    http_error_400 (.jobj [("x", .jnull)]) = .error .keyError ∧
    http_error_400 (.jobj [("error", .jarr [.jobj [("id", .jnum 7)]])]) =
      .error .keyError ∧
    http_error_400 (.jobj [("error", .jarr [.jobj [("description", .jstr "Bad")]])]) =
      .error .keyError :=
  ⟨c3_decoder_amended.1 _ rfl,
   c3_decoder_amended.2.1 _ _ [] _ _ rfl rfl rfl,
   c3_decoder_amended.2.2.1 _ rfl,
   c3_decoder_amended.2.2.2.1 _ _ [] rfl rfl,
   c3_decoder_amended.2.2.2.2 _ _ [] _ rfl rfl rfl⟩

/-- C4 counterexample: on the body `{"error": []}` the decoder does
raise the generic `HelpSpotError` with id 0, but its description is
`'Unknown HelpSpot API error'`, which is not the string
`"Unknown API error"` the claim states. -/
theorem c4_generic_description_cex :
    http_error_400 (.jobj [("error", .jarr [])]) =
      .ok ⟨.jstr "Unknown HelpSpot API error", .jnum 0⟩ ∧
    "Unknown HelpSpot API error" ≠ "Unknown API error" :=
  ⟨rfl, by decide⟩

/-- C4 amended: a 400 response whose body is `{"error": []}` makes the
decoder raise a `HelpSpotError` whose description is exactly
`'Unknown HelpSpot API error'` and whose id is 0. -/
theorem c4_generic_description :
    http_error_400 (.jobj [("error", .jarr [])]) =
      .ok ⟨.jstr "Unknown HelpSpot API error", .jnum 0⟩ :=
  rfl

/-- C5: a 400 response with body
`{"error":[{"description":"Bad token","id":42}]}` raises a
`HelpSpotError` that exposes the description `"Bad token"` and the
numeric id `42` as two distinct fields. -/
theorem c5_description_and_id :
    ∃ e : HelpSpotError,
      http_error_400
          (.jobj [("error",
            .jarr [.jobj [("description", .jstr "Bad token"), ("id", .jnum 42)]])]) =
        .ok e ∧
      e.err_mesg = .jstr "Bad token" ∧ e.err_id = .jnum 42 :=
  ⟨⟨.jstr "Bad token", .jnum 42⟩, rfl, rfl, rfl⟩

/-! ### Claims about verb selection and name translation (C2, C8) -/

/-- C2: the method-name-to-verb mapping is total and static: the
invoker selects POST exactly when the wire-form name is in
`_POST_METHODS`, GET for every other name; `request_create` selects
POST and `version` selects GET. -/
theorem c2_verb_selection :
    ∀ m u p uri,
      ((HelpSpotAPI.init m u p uri).action = "POST" ↔
        (HelpSpotAPI.init m u p uri).method ∈ _POST_METHODS) ∧
      ((HelpSpotAPI.init m u p uri).method ∉ _POST_METHODS →
        (HelpSpotAPI.init m u p uri).action = "GET") ∧
      (HelpSpotAPI.init "request_create" u p uri).action = "POST" ∧
      (HelpSpotAPI.init "version" u p uri).action = "GET" := by
  intro m u p uri
  refine ⟨?_, ?_, rfl, rfl⟩
  · by_cases h : pyReplace1 m '_' '.' ∈ _POST_METHODS <;>
      simp [HelpSpotAPI.init, h]
  · intro h
    simp only [HelpSpotAPI.init] at h ⊢
    simp [h]

/-- C2 witness: the verb mapping applied at `request_create` and at a
name outside the mutating set. -/
theorem c2_verb_selection_witness :
    ((HelpSpotAPI.init "request_create" "u" "p" "http://h").action = "POST" ↔
      (HelpSpotAPI.init "request_create" "u" "p" "http://h").method ∈ _POST_METHODS) ∧
    (HelpSpotAPI.init "foo_bar" "u" "p" "http://h").action = "GET" :=
  ⟨(c2_verb_selection "request_create" "u" "p" "http://h").1,
   (c2_verb_selection "foo_bar" "u" "p" "http://h").2.1 (by decide)⟩

/-- C8: the caller-facing-to-wire-form translation is exact and total:
the wire name has the same length, each underscore becomes a dot and
every other character is unchanged; `private_request_update` maps to
`private.request.update`. -/
theorem c8_underscore_to_dot :
    ∀ m u p uri,
      (HelpSpotAPI.init m u p uri).method.data.length = m.data.length ∧
      (∀ i : Nat, (HelpSpotAPI.init m u p uri).method.data.getD i '.' =
        (if m.data.getD i '.' = '_' then '.' else m.data.getD i '.')) ∧
      (HelpSpotAPI.init "private_request_update" u p uri).method =
        "private.request.update" := by
  intro m u p uri
  refine ⟨?_, fun i => ?_, rfl⟩
  · simp [HelpSpotAPI.init, pyReplace1]
  · simpa [HelpSpotAPI.init, pyReplace1] using getD_map_underscore_dot m.data i

/-! ### Immutability of invokers (C9) -/

/-- C9: invokers are immutable: after any sequence of calls with any
keyword parameters, every field bound at construction (wire-form method
name, user, password, authorization token, normalized URI, HTTP verb)
is identical to its value before the calls. -/
theorem c9_invoker_immutable :
    ∀ (a : HelpSpotAPI) (calls : List (List (String × String))),
      let final := calls.foldl (fun s kw => (HelpSpotAPI.call s kw).2) a
      final.method = a.method ∧ final.user = a.user ∧
      final.password = a.password ∧ final.authz = a.authz ∧
      final.uri = a.uri ∧ final.action = a.action := by
  intro a calls
  have h : calls.foldl (fun s kw => (HelpSpotAPI.call s kw).2) a = a := by
    induction calls with
    | nil => rfl
    | cons x xs ih => exact ih
  exact ⟨by rw [h], by rw [h], by rw [h], by rw [h], by rw [h], by rw [h]⟩

/-! ### Attribute resolution on the client (C10) -/

/-- C10: attribute access on the client yields the construction-bound
value for the stored names `uri`, `user` and `password`, and a fresh
`HelpSpotAPI` invoker bound to the accessed name (with the client's
credentials and endpoint) for every other name. -/
theorem c10_getattr_dispatch :
    ∀ uri user password key,
      (key = "uri" →
        (HelpSpot.init uri user password).getattr key = .stored uri) ∧
      (key = "user" →
        (HelpSpot.init uri user password).getattr key = .stored user) ∧
      (key = "password" →
        (HelpSpot.init uri user password).getattr key = .stored password) ∧
      (key ≠ "uri" → key ≠ "user" → key ≠ "password" →
        ∃ a, (HelpSpot.init uri user password).getattr key = .invoker a ∧
          a.method = pyReplace1 key '_' '.' ∧ a.user = user ∧
          a.password = password ∧
          a.uri = pyRstripChar uri '/' ++ "/api/index.php?method=") := by
  intro uri user password key
  refine ⟨fun h => ?_, fun h => ?_, fun h => ?_, fun h1 h2 h3 => ?_⟩
  · subst h; rfl
  · subst h; rfl
  · subst h; rfl
  · simp only [HelpSpot.getattr, HelpSpot.init]
    rw [if_neg h1, if_neg h2, if_neg h3]
    exact ⟨_, rfl, rfl, rfl, rfl, rfl⟩

/-- C10 witness: accessing the stored `uri` returns the endpoint bound
at construction, while accessing `version` yields an invoker for that
method carrying the client's credentials. -/
theorem c10_getattr_dispatch_witness :
    (HelpSpot.init "http://h" "u" "p").getattr "uri" = .stored "http://h" ∧
    (∃ a, (HelpSpot.init "http://h" "u" "p").getattr "version" = .invoker a ∧
      a.method = pyReplace1 "version" '_' '.' ∧ a.user = "u" ∧
      a.password = "p" ∧
      a.uri = pyRstripChar "http://h" '/' ++ "/api/index.php?method=") :=
  ⟨(c10_getattr_dispatch "http://h" "u" "p" "uri").1 rfl,
   (c10_getattr_dispatch "http://h" "u" "p" "version").2.2.2
     (by decide) (by decide) (by decide)⟩

/-! ### The authorization header (C1) -/

/-- Every base64 digit is a non-whitespace character. -/
theorem b64Char_not_ws (n : Nat) : isPyWS (b64Char n) = false := by
  have hall : ∀ c ∈ b64Alphabet, isPyWS c = false := by decide
  rw [b64Char, List.getD_eq_getElem?_getD]
  cases h : b64Alphabet[n]? with
  | none => decide
  | some c =>
    obtain ⟨hn, rfl⟩ := List.getElem?_eq_some.mp h
    simpa using hall _ (List.getElem_mem hn)

/-- base64 output contains no whitespace. -/
theorem b64_not_ws : ∀ (bs : List Nat), ∀ c ∈ b64EncodeBytes bs, isPyWS c = false
  | [] => by intro c hc; simp [b64EncodeBytes] at hc
  | [a] => by
    intro c hc
    simp [b64EncodeBytes] at hc
    rcases hc with rfl | rfl | rfl
    · exact b64Char_not_ws _
    · exact b64Char_not_ws _
    · decide
  | [a, b] => by
    intro c hc
    simp [b64EncodeBytes] at hc
    rcases hc with rfl | rfl | rfl | rfl
    · exact b64Char_not_ws _
    · exact b64Char_not_ws _
    · exact b64Char_not_ws _
    · decide
  | a :: b :: d :: rest => by
    intro c hc
    simp [b64EncodeBytes] at hc
    rcases hc with rfl | rfl | rfl | rfl | hmem
    · exact b64Char_not_ws _
    · exact b64Char_not_ws _
    · exact b64Char_not_ws _
    · exact b64Char_not_ws _
    · exact b64_not_ws rest c hmem

/-- `dropWhile` is the identity when no element satisfies the
predicate. -/
theorem dropWhile_eq_self_of_not (p : Char → Bool) (l : List Char)
    (h : ∀ c ∈ l, p c = false) : l.dropWhile p = l := by
  cases l with
  | nil => rfl
  | cons a t =>
    rw [List.dropWhile_cons, h a (by simp)]
    simp

/-- A bare `rstrip()` leaves a whitespace-free string unchanged. -/
theorem pyRstripWS_eq_self (s : String) (h : ∀ c ∈ s.data, isPyWS c = false) :
    pyRstripWS s = s := by
  rw [pyRstripWS,
    dropWhile_eq_self_of_not _ _ (fun c hc => h c (List.mem_reverse.mp hc)),
    List.reverse_reverse]

/-- The token precomputed by `__init__` is exactly the base64 encoding
of `user:password` (the trailing `rstrip()` strips nothing, since
base64 output has no whitespace). -/
theorem init_authz (m u p uri : String) :
    (HelpSpotAPI.init m u p uri).authz = b64of (u ++ ":" ++ p) :=
  pyRstripWS_eq_self _ (fun c hc => b64_not_ws _ c hc)

/-- C1: a request carries the Authorization header, with value
`'Basic '` followed by the base64 encoding of `user:password`, exactly
when the wire-form method name starts with `private.`; for every other
method name no Authorization header is present, whatever the keyword
parameters and endpoint. -/
theorem c1_auth_header :
    ∀ m u p uri kwargs,
      (pyStartswith (HelpSpotAPI.init m u p uri).method "private." = true →
        ((HelpSpotAPI.init m u p uri).call kwargs).1.authHeader =
          some ("Basic " ++ b64of (u ++ ":" ++ p))) ∧
      (pyStartswith (HelpSpotAPI.init m u p uri).method "private." = false →
        ((HelpSpotAPI.init m u p uri).call kwargs).1.authHeader = none) := by
  intro m u p uri kwargs
  constructor <;> intro h
  · simp [HelpSpotAPI.call, h, init_authz]
  · simp [HelpSpotAPI.call, h]

/-- C1 witness: `private.version` carries the header with the encoded
credentials; `version` carries none. -/
theorem c1_auth_header_witness :
    ((HelpSpotAPI.init "private_version" "u" "p" "http://h").call []).1.authHeader =
      some ("Basic " ++ b64of ("u" ++ ":" ++ "p")) ∧
    ((HelpSpotAPI.init "version" "u" "p" "http://h").call []).1.authHeader = none :=
  ⟨(c1_auth_header "private_version" "u" "p" "http://h" []).1 (by decide),
   (c1_auth_header "version" "u" "p" "http://h" []).2 (by decide)⟩

/-! ### The request URL (C7) -/

/-- Projection: the wire-form method name bound by `__init__`. -/
theorem init_method (m u p uri : String) :
    (HelpSpotAPI.init m u p uri).method = pyReplace1 m '_' '.' := rfl

/-- Projection: the normalized endpoint bound by `__init__`. -/
theorem init_uri (m u p uri : String) :
    (HelpSpotAPI.init m u p uri).uri =
      pyRstripChar uri '/' ++ "/api/index.php?method=" := rfl

/-- The URL built by a call, by case on the verb and on the presence of
parameters. -/
theorem call_url (a : HelpSpotAPI) (kwargs : List (String × String)) :
    (a.call kwargs).1.url =
      (if a.action = "GET" then
        (if urlencode kwargs ≠ "" then a.uri ++ a.method ++ "&" ++ urlencode kwargs
         else a.uri ++ a.method)
       else a.uri ++ a.method) ++ "&output=json" := by
  by_cases hg : a.action = "GET" <;> by_cases hp : urlencode kwargs = "" <;>
    simp [HelpSpotAPI.call, hg, hp]

/-- The body built by a call: absent for GET. -/
theorem call_body_get (a : HelpSpotAPI) (kwargs : List (String × String))
    (h : a.action = "GET") : (a.call kwargs).1.body = none := by
  simp [HelpSpotAPI.call, h]

/-- The body built by a call: the URL-encoded parameters for non-GET. -/
theorem call_body_post (a : HelpSpotAPI) (kwargs : List (String × String))
    (h : ¬a.action = "GET") : (a.call kwargs).1.body = some (urlencode kwargs) := by
  simp [HelpSpotAPI.call, h]

/-- C7: every request URL is the endpoint with trailing slashes
stripped, the fixed entry path `/api/index.php?method=`, the wire-form
method name, and then the rest of the query string, always ending in
the appended `&output=json`. -/
theorem c7_url_form :
    ∀ ep m u p kwargs,
      ∃ mid,
        ((HelpSpotAPI.init m u p ep).call kwargs).1.url =
          pyRstripChar ep '/' ++ "/api/index.php?method=" ++
            (HelpSpotAPI.init m u p ep).method ++ mid ++ "&output=json" := by
  intro ep m u p kwargs
  rw [call_url, init_uri]
  by_cases hg : (HelpSpotAPI.init m u p ep).action = "GET"
  · by_cases hp : urlencode kwargs = ""
    · exact ⟨"", by simp [hg, hp, String.append_empty, String.append_assoc]⟩
    · exact ⟨"&" ++ urlencode kwargs, by simp [hg, hp, String.append_assoc]⟩
  · exact ⟨"", by simp [hg, String.append_empty, String.append_assoc]⟩

/-! ### Parameter placement (C6) -/

/-- Every string of a `'&'.join` is an infix of the joined string. -/
theorem mem_joinAmp_infix :
    ∀ (xs : List String) (x : String), x ∈ xs → x.data <:+: (joinAmp xs).data
  | [], x, hx => by simp at hx
  | [y], x, hx => by
    rw [List.mem_singleton] at hx
    subst hx
    exact List.infix_refl _
  | y :: z :: rest, x, hx => by
    rcases List.mem_cons.mp hx with rfl | hx'
    · exact ⟨[], "&".data ++ (joinAmp (z :: rest)).data,
        by simp [joinAmp, String.data_append, List.append_assoc]⟩
    · obtain ⟨s, t, hst⟩ := mem_joinAmp_infix (z :: rest) x hx'
      refine ⟨(y ++ "&").data ++ s, t, ?_⟩
      simp only [joinAmp, String.data_append, List.append_assoc]
      rw [← hst]
      simp [List.append_assoc]

/-- Dropping up to the first `?` of `a ++ '?' :: b` yields `b` when `a`
is `?`-free. -/
theorem queryOf_mk_append (a b : List Char) (h : ∀ c ∈ a, c ≠ '?') :
    queryOf ⟨a ++ '?' :: b⟩ = ⟨b⟩ := by
  show String.mk (((a ++ '?' :: b).dropWhile fun c => !(c == '?')).drop 1) = ⟨b⟩
  have hdrop : (a ++ '?' :: b).dropWhile (fun c => !(c == '?')) = '?' :: b := by
    induction a with
    | nil => simp [List.dropWhile_cons]
    | cons x xs ih =>
      have hx : x ≠ '?' := h x (by simp)
      simp only [List.cons_append, List.dropWhile_cons]
      rw [if_pos (by simp [hx]), ih (fun c hc => h c (by simp [hc]))]
  rw [hdrop]
  rfl

/-- `rstrip` only removes characters: whatever remains was in the
original string. -/
theorem mem_of_mem_pyRstripChar (s : String) (x c : Char)
    (h : c ∈ (pyRstripChar s x).data) : c ∈ s.data := by
  rw [pyRstripChar, List.mem_reverse] at h
  exact List.mem_reverse.mp ((List.dropWhile_suffix _).sublist.subset h)

/-- The query string of a URL built on the normalized endpoint: for a
`?`-free endpoint, everything after the entry path's `?` is `method=`
followed by the given tail. -/
theorem queryOf_init_uri (ep m u p tail : String)
    (hep : ep.data.contains '?' = false) :
    queryOf ((HelpSpotAPI.init m u p ep).uri ++ tail) = "method=" ++ tail := by
  have hA : ∀ c ∈ (pyRstripChar ep '/').data ++ ("/api/index.php" : String).data,
      c ≠ '?' := by
    intro c hc
    rcases List.mem_append.mp hc with h1 | h2
    · have hnot : '?' ∉ ep.data := by simpa using hep
      exact fun heq => hnot (heq ▸ mem_of_mem_pyRstripChar ep '/' c h1)
    · have hfix : ∀ c ∈ ("/api/index.php" : String).data, c ≠ '?' := by decide
      exact hfix c h2
  have hurl : (HelpSpotAPI.init m u p ep).uri ++ tail =
      ⟨((pyRstripChar ep '/').data ++ ("/api/index.php" : String).data) ++
        '?' :: ("method=".data ++ tail.data)⟩ := by
    apply String.ext
    rw [init_uri]
    have hsplit : ("/api/index.php?method=" : String).data =
        "/api/index.php".data ++ '?' :: "method=".data := rfl
    simp [String.data_append, hsplit, List.append_assoc]
  rw [hurl, queryOf_mk_append _ _ hA]
  apply String.ext
  simp [String.data_append]

/-- C6: GET calls place every keyword parameter, URL-encoded, into the
query string and send no body; POST calls carry the URL-encoded
parameters in the body, and their query string is exactly
`method=<wire-name>&output=json`, containing only the `method` and
`output` parameters. -/
theorem c6_parameter_placement :
    ∀ ep m u p kwargs, ep.data.contains '?' = false →
      ((HelpSpotAPI.init m u p ep).action = "GET" →
        ((HelpSpotAPI.init m u p ep).call kwargs).1.body = none ∧
        ∀ kv ∈ kwargs, (encPair kv).data <:+:
          (queryOf ((HelpSpotAPI.init m u p ep).call kwargs).1.url).data) ∧
      ((HelpSpotAPI.init m u p ep).action = "POST" →
        ((HelpSpotAPI.init m u p ep).call kwargs).1.body = some (urlencode kwargs) ∧
        (∀ kv ∈ kwargs, (encPair kv).data <:+: (urlencode kwargs).data) ∧
        queryOf ((HelpSpotAPI.init m u p ep).call kwargs).1.url =
          "method=" ++ (HelpSpotAPI.init m u p ep).method ++ "&output=json") := by
  intro ep m u p kwargs hep
  constructor
  · intro hg
    refine ⟨call_body_get _ _ hg, ?_⟩
    intro kv hkv
    have hpair : (encPair kv).data <:+: (urlencode kwargs).data :=
      mem_joinAmp_infix _ _ (List.mem_map_of_mem encPair hkv)
    by_cases hp : urlencode kwargs = ""
    · have : (encPair kv).data = [] := by simpa [hp] using hpair
      rw [this]
      exact List.nil_infix
    · have hurl : ((HelpSpotAPI.init m u p ep).call kwargs).1.url =
          (HelpSpotAPI.init m u p ep).uri ++
            ((HelpSpotAPI.init m u p ep).method ++ "&" ++ urlencode kwargs ++
              "&output=json") := by
        rw [call_url]
        simp [hg, hp, String.append_assoc]
      rw [hurl, queryOf_init_uri ep m u p _ hep]
      obtain ⟨s, t, hst⟩ := hpair
      refine ⟨("method=" ++ ((HelpSpotAPI.init m u p ep).method ++ "&")).data ++ s,
        t ++ ("&output=json" : String).data, ?_⟩
      simp only [String.data_append, List.append_assoc]
      rw [← hst]
      simp [List.append_assoc]
  · intro hpost
    have hng : ¬(HelpSpotAPI.init m u p ep).action = "GET" := by
      rw [hpost]; decide
    refine ⟨call_body_post _ _ hng, fun kv hkv =>
      mem_joinAmp_infix _ _ (List.mem_map_of_mem encPair hkv), ?_⟩
    have hurl : ((HelpSpotAPI.init m u p ep).call kwargs).1.url =
        (HelpSpotAPI.init m u p ep).uri ++
          ((HelpSpotAPI.init m u p ep).method ++ "&output=json") := by
      rw [call_url]
      simp [hng, String.append_assoc]
    rw [hurl, queryOf_init_uri ep m u p _ hep, String.append_assoc]

/-- C6 witness: a GET call (`version`, one parameter needing encoding)
sends no body and carries the encoded parameter in its query string; a
POST call (`request_create`) carries it in the body and keeps the query
string at `method=request.create&output=json`. -/
theorem c6_parameter_placement_witness :
    ((HelpSpotAPI.init "version" "u" "p" "http://h").call [("a b", "c")]).1.body = none ∧
    (encPair ("a b", "c")).data <:+:
      (queryOf ((HelpSpotAPI.init "version" "u" "p" "http://h").call
        [("a b", "c")]).1.url).data ∧
    ((HelpSpotAPI.init "request_create" "u" "p" "http://h").call
        [("a b", "c")]).1.body = some (urlencode [("a b", "c")]) ∧
    queryOf ((HelpSpotAPI.init "request_create" "u" "p" "http://h").call
        [("a b", "c")]).1.url =
      "method=" ++ (HelpSpotAPI.init "request_create" "u" "p" "http://h").method ++
        "&output=json" := by
  have hget := (c6_parameter_placement "http://h" "version" "u" "p"
    [("a b", "c")] (by decide)).1 (by decide)
  have hpost := (c6_parameter_placement "http://h" "request_create" "u" "p"
    [("a b", "c")] (by decide)).2 (by decide)
  exact ⟨hget.1, hget.2 _ (by simp), hpost.1, hpost.2.2⟩
